import Mathlib

/-!
Verification of the hi-tek-dashboard date/KPI logic (src/script.js and the
two unnamed variants).

The dashboard's date handling goes through JavaScript `Date` objects:
`serialDateToISO` adds `serial` days (in milliseconds) to the UTC epoch
1899-12-30 and reads the resulting calendar date back via `toISOString`.
We model the proleptic-Gregorian conversions that ECMAScript `Date`
performs with the standard civil-calendar algorithms, working on a
shifted day number `g` counted from 0000-03-01 (so that all arithmetic
stays in `Nat`): `g = 719468` is 1970-01-01 and `g = 693899` is
1899-12-30, the spreadsheet epoch used by the code.
-/

/-- Leap-adjusted day count: subtracts one day per 4-year leap day and
re-adds the century corrections, so that dividing by 365 yields the
year-of-era.  Helper for `civilFromDaysN`. -/
def nF (x : Nat) : Nat := x - x / 1460 + x / 36524 - x / 146096

/-- Year-of-era (0..399) of a day-of-era (0..146096). -/
def yoeF (x : Nat) : Nat := nF x / 365

/-- First day-of-era of year-of-era `y`. -/
def yStart (y : Nat) : Nat := 365 * y + y / 4 - y / 100

/-- Last day-of-era of year-of-era `y`. -/
def yEndD (y : Nat) : Nat := if y = 399 then 146096 else yStart (y + 1) - 1

/-- Calendar date extraction: shifted day number `g` (days since
0000-03-01) to `(year, month, day)`.  Models what `new Date(ms)` followed
by `toISOString().split('T')[0]` computes for `ms = (g - 719468) * 86400000`. -/
def civilFromDaysN (g : Nat) : Nat × Nat × Nat :=
  let doe := g % 146097
  let era := g / 146097
  let yoe := yoeF doe
  let doy := doe - yStart yoe
  let mp := (5 * doy + 2) / 153
  let d := doy - (153 * mp + 2) / 5 + 1
  let m := if mp < 10 then mp + 3 else mp - 9
  let y := yoe + era * 400
  (if m ≤ 2 then y + 1 else y, m, d)

/-- Day-number derivation: `(year, month, day)` to the shifted day number.
Models what `Date.UTC(y, m - 1, d) / 86400000 + 719468` computes (the
`safeDate` + `getTime` path of src/script.js). -/
def daysFromCivilN (y m d : Nat) : Nat :=
  let y' := if m ≤ 2 then y - 1 else y
  let era := y' / 400
  let yoe := y' % 400
  let mp := if 2 < m then m - 3 else m + 9
  let doy := (153 * mp + 2) / 5 + d - 1
  era * 146097 + (yStart yoe + doy)

/-- Bounded universal Boolean check on `[k, k + n)`, written through
`Nat.rec` so that kernel evaluation of moderate ranges stays cheap. -/
def allB (p : Nat → Bool) : Nat → Nat → Bool :=
  Nat.rec (motive := fun _ => Nat → Bool) (fun _ => true)
    (fun _ ih k => p k && ih (k + 1))

theorem allB_sound (p : Nat → Bool) :
    ∀ n k, allB p n k = true → ∀ d, k ≤ d → d < k + n → p d = true := by
  intro n
  induction n with
  | zero => intro k _ d h1 h2; omega
  | succ m ih =>
    intro k h d h1 h2
    have hstep : allB p (m + 1) k = (p k && allB p m (k + 1)) := rfl
    rw [hstep, Bool.and_eq_true] at h
    rcases Nat.eq_or_lt_of_le h1 with rfl | hlt
    · exact h.1
    · exact ih (k + 1) h.2 d hlt (by omega)

/-- Boundary check: `yoeF` maps the first and last day of year-of-era `y`
back to `y`. -/
def ybOK (y : Nat) : Bool := (yoeF (yStart y) == y) && (yoeF (yEndD y) == y)

set_option maxRecDepth 20000 in
theorem ybOK_all : allB ybOK 400 0 = true := by rfl

theorem yb_facts (y : Nat) (h : y ≤ 399) :
    yoeF (yStart y) = y ∧ yoeF (yEndD y) = y := by
  have := allB_sound ybOK 400 0 ybOK_all y (Nat.zero_le y) (by omega)
  rw [ybOK, Bool.and_eq_true, beq_iff_eq, beq_iff_eq] at this
  exact this

theorem nF_step (a : Nat) (h : a + 1 ≤ 146096) : nF a ≤ nF (a + 1) := by
  unfold nF
  omega

theorem nF_mono {a b : Nat} (hab : a ≤ b) (hb : b ≤ 146096) : nF a ≤ nF b := by
  induction b with
  | zero =>
    have ha : a = 0 := Nat.le_zero.mp hab
    rw [ha]
  | succ m ih =>
    rcases Nat.eq_or_lt_of_le hab with rfl | hlt
    · exact Nat.le_refl _
    · exact Nat.le_trans (ih (by omega) (by omega)) (nF_step m hb)

theorem yoeF_mono {a b : Nat} (hab : a ≤ b) (hb : b ≤ 146096) : yoeF a ≤ yoeF b :=
  Nat.div_le_div_right (nF_mono hab hb)

/-- The computed year-of-era of any day-of-era is correct: the day lies
between the start of that year and at most 365 days later, and the year
is within the era. -/
theorem year_sandwich (doe : Nat) (h : doe ≤ 146096) :
    yStart (yoeF doe) ≤ doe ∧ doe - yStart (yoeF doe) ≤ 365 ∧ yoeF doe ≤ 399 := by
  have h399 : yoeF doe ≤ 399 := by
    have hm : yoeF doe ≤ yoeF 146096 := yoeF_mono h (by omega)
    have h146096 : yEndD 399 = 146096 := by unfold yEndD; simp
    have h2 := (yb_facts 399 (by omega)).2
    rw [h146096] at h2
    omega
  refine ⟨?_, ?_, h399⟩
  · by_contra hlt
    push_neg at hlt
    have hy0pos : 1 ≤ yoeF doe := by
      rcases Nat.eq_zero_or_pos (yoeF doe) with h0 | h1
      · rw [h0] at hlt; unfold yStart at hlt; omega
      · exact h1
    have hEnd : yEndD (yoeF doe - 1) = yStart (yoeF doe) - 1 := by
      unfold yEndD
      rw [if_neg (by omega)]
      have hy : yoeF doe - 1 + 1 = yoeF doe := by omega
      rw [hy]
    have hsb : yStart (yoeF doe) ≤ 146096 + 1 := by
      unfold yStart; omega
    have hmono : yoeF doe ≤ yoeF (yStart (yoeF doe) - 1) := yoeF_mono (by omega) (by omega)
    rw [← hEnd, (yb_facts (yoeF doe - 1) (by omega)).2] at hmono
    omega
  · by_contra h'
    push_neg at h'
    rcases Nat.lt_or_ge (yoeF doe) 399 with hy | hy
    · have hstep : yStart (yoeF doe + 1) ≤ yStart (yoeF doe) + 366 := by
        unfold yStart; omega
      have hmono : yoeF (yStart (yoeF doe + 1)) ≤ yoeF doe := yoeF_mono (by omega) h
      rw [(yb_facts (yoeF doe + 1) (by omega)).1] at hmono
      omega
    · have h399' : yoeF doe = 399 := by omega
      have hv : yStart (yoeF doe) = 145731 := by rw [h399']; decide
      omega

/-- The civil conversions are mutually inverse on day numbers. -/
theorem daysFromCivilN_civilFromDaysN (g : Nat) :
    daysFromCivilN (civilFromDaysN g).1 (civilFromDaysN g).2.1 (civilFromDaysN g).2.2 = g := by
  have hdoe : g % 146097 ≤ 146096 := by omega
  obtain ⟨h1, h2, h3⟩ := year_sandwich (g % 146097) hdoe
  have hg : 146097 * (g / 146097) + g % 146097 = g := Nat.div_add_mod g 146097
  simp only [civilFromDaysN, daysFromCivilN]
  generalize hq : yoeF (g % 146097) = q at h1 h2 h3
  have hmod : (q + g / 146097 * 400) % 400 = q := by omega
  have hdiv : (q + g / 146097 * 400) / 400 = g / 146097 := by omega
  split_ifs <;> (try simp only [Nat.add_sub_cancel]) <;> rw [hmod, hdiv] <;> omega

/-- Spreadsheet epoch 1899-12-30 as a shifted day number. -/
def sheetEpochDay : Nat := 693899

/-- `serialDateToISO` of src/script.js on an integer serial: `Number(serial)`
below 1 (or NaN) yields the empty-string sentinel (`none`); otherwise the
date `serial` days after 1899-12-30 is returned as `(year, month, day)`. -/
def serialDateToISO (serial : Int) : Option (Nat × Nat × Nat) :=
  if serial < 1 then none else some (civilFromDaysN (sheetEpochDay + serial.toNat))

/-- Re-derivation of the serial number from a calendar date: day number of
the date minus the day number of the epoch 1899-12-30. -/
def dateToSerial (y m d : Nat) : Int := (daysFromCivilN y m d : Int) - sheetEpochDay

/-- Claim C1: for every integer serial-date input `s ≥ 1`, converting `s`
to a calendar date with `serialDateToISO` and re-deriving the serial
number from the resulting `(year, month, day)` yields `s` again. -/
theorem serialDateToISO_roundTrip (s : Int) (hs : 1 ≤ s) :
    (serialDateToISO s).map (fun c => dateToSerial c.1 c.2.1 c.2.2) = some s := by
  unfold serialDateToISO dateToSerial
  rw [if_neg (by omega)]
  simp only [Option.map_some']
  rw [daysFromCivilN_civilFromDaysN]
  unfold sheetEpochDay
  rw [Option.some_inj]
  omega

/-- Witness for C1 at the serial `45963` mentioned in the source comment
(2025-11-02). -/
theorem serialDateToISO_roundTrip_witness :
    (1 : Int) ≤ 45963 ∧
      (serialDateToISO 45963).map (fun c => dateToSerial c.1 c.2.1 c.2.2) = some 45963 :=
  ⟨by decide, serialDateToISO_roundTrip 45963 (by decide)⟩

/-- `safeDate` of src/script.js: builds the timestamp of UTC midnight of a
`(year, month, day)` triple via `Date.UTC`.  `Date.UTC` is independent of
the host's local timezone offset, which the unused `tz` parameter makes
explicit in the model. -/
def safeDate (y m d : Nat) (tz : Int) : Int :=
  86400000 * (daysFromCivilN y m d : Int)

/-- `diffInDays` of src/script.js `updateDashboard`:
`Math.floor(Math.abs(date2 - date1) / 86400000)`, `NaN` (`none`) when
either date is missing. -/
def diffInDays : Option Int → Option Int → Option Int
  | some t1, some t2 => some (((t2 - t1).natAbs / 86400000 : Nat) : Int)
  | _, _ => none

/-- Claim C2: a canonical calendar date compared with itself is exactly 0
days apart, and the `safeDate` construction does not depend on the local
timezone offset. -/
theorem diffInDays_self (y m d : Nat) (tz tz' : Int) :
    diffInDays (some (safeDate y m d tz)) (some (safeDate y m d tz)) = some 0 ∧
      safeDate y m d tz = safeDate y m d tz' := by
  refine ⟨?_, rfl⟩
  simp [diffInDays]

/-- The days-spent KPI of src/script.js `updateDashboard`: `N/A` (`none`)
when the start date is missing, otherwise
`diffInDays(startDate, today)` displayed as itself when positive and as
`0` otherwise. -/
def kpiDaysSpent (startDate today : Option Int) : Option Int :=
  match diffInDays startDate today with
  | none => none
  | some ds => some (if 0 < ds then ds else 0)

/-- Claim C3 (failing input): with today = 2025-11-02 and a start date of
2025-11-03 (one day in the future), the dashboard displays
`daysSpent = 1` — the positive count of days until the start — because
`diffInDays` takes `Math.abs` of the difference, so the `> 0 ? _ : 0`
clamp never fires.  The spec requires `daysSpent = 0` here. -/
theorem kpiDaysSpent_futureStart :
    kpiDaysSpent (some (safeDate 2025 11 3 0)) (some (safeDate 2025 11 2 0)) = some 1 ∧
      safeDate 2025 11 2 0 < safeDate 2025 11 3 0 := by
  constructor
  · rfl
  · decide

/-- Folding `+ f a` over a list from `init` is `init` plus the sum of the
mapped list (the accumulation pattern of the `forEach`/`reduce` loops in
the source). -/
theorem foldl_add_eq_sum {α M : Type} [AddCommMonoid M] (f : α → M) :
    ∀ (l : List α) (init : M), l.foldl (fun acc a => acc + f a) init = init + (l.map f).sum := by
  intro l
  induction l with
  | nil => intro init; simp
  | cons x t ih => intro init; simp [ih, add_assoc]

/-- `Math.round(a / b)` for natural `a` and positive natural `b`:
round-half-up, computed as `⌊(2a + b) / (2b)⌋`. -/
def jsRoundDiv (a b : Nat) : Nat := (2 * a + b) / (2 * b)

/-- `jsRoundDiv a b` is within one half of the exact rational `a / b`. -/
theorem jsRoundDiv_near (a b : Nat) (hb : 0 < b) :
    |(jsRoundDiv a b : ℚ) - (a : ℚ) / (b : ℚ)| ≤ 1 / 2 := by
  have hq := Nat.div_add_mod (2 * a + b) (2 * b)
  have hr : (2 * a + b) % (2 * b) < 2 * b := Nat.mod_lt _ (by omega)
  have hbQ : (0 : ℚ) < (b : ℚ) := by exact_mod_cast hb
  have key : 2 * (b : ℚ) * (jsRoundDiv a b : ℚ) + ((2 * a + b) % (2 * b) : Nat) =
      2 * (a : ℚ) + b := by
    unfold jsRoundDiv
    exact_mod_cast hq
  have hrQ : (((2 * a + b) % (2 * b) : Nat) : ℚ) < 2 * b := by exact_mod_cast hr
  have hr0 : (0 : ℚ) ≤ (((2 * a + b) % (2 * b) : Nat) : ℚ) := by positivity
  have hab : ((a : ℚ) / b) * (2 * b) = 2 * a := by
    field_simp
    ring
  have expand : ((jsRoundDiv a b : ℚ) - (a : ℚ) / b) * (2 * b) =
      (b : ℚ) - ((2 * a + b) % (2 * b) : Nat) := by
    calc ((jsRoundDiv a b : ℚ) - (a : ℚ) / b) * (2 * b)
        = (jsRoundDiv a b : ℚ) * (2 * b) - ((a : ℚ) / b) * (2 * b) := by ring
      _ = (jsRoundDiv a b : ℚ) * (2 * b) - 2 * a := by rw [hab]
      _ = (b : ℚ) - ((2 * a + b) % (2 * b) : Nat) := by linarith [key]
  have habs : |(jsRoundDiv a b : ℚ) - (a : ℚ) / b| * (2 * b) =
      |(b : ℚ) - ((2 * a + b) % (2 * b) : Nat)| := by
    rw [← abs_of_pos (show (0 : ℚ) < 2 * b by positivity), ← abs_mul, expand]
  have hbr : |(b : ℚ) - ((2 * a + b) % (2 * b) : Nat)| ≤ b := by
    rw [abs_le]
    constructor <;> linarith
  have hfin : |(jsRoundDiv a b : ℚ) - (a : ℚ) / b| =
      |(b : ℚ) - ((2 * a + b) % (2 * b) : Nat)| / (2 * b) := by
    rw [eq_div_iff (by positivity)]
    exact habs
  rw [hfin, div_le_iff (by positivity)]
  have h2b : (1 : ℚ) / 2 * (2 * b) = b := by ring
  rw [h2b]
  exact hbr

/-- Task-completion KPI of src/script.js `loadTasks`: `0%` for an empty
task list, otherwise `Math.round(totalProgress / totalTasks)` where
`totalProgress` is accumulated with `+=` over the per-task `Progress`
values. -/
def loadTasksPercent (progresses : List Nat) : Nat :=
  if progresses.length = 0 then 0
  else jsRoundDiv (progresses.foldl (fun acc p => acc + p) 0) progresses.length

/-- A task row as read by the part_001 variant: a numeric progress column
and a status string. -/
structure TaskRow where
  Progress : Nat
  Status : List Char

/-- `String.trim` on a character list (space characters only). -/
def trimChars (s : List Char) : List Char :=
  ((s.dropWhile (· = ' ')).reverse.dropWhile (· = ' ')).reverse

/-- part_001 `loadTasks`: a task is completed when
`String(task.Status).trim().toLowerCase()` is `'completed'` or `'done'`. -/
def isCompleted01 (s : List Char) : Bool :=
  let t := (trimChars s).map Char.toLower
  t == ['c', 'o', 'm', 'p', 'l', 'e', 't', 'e', 'd'] || t == ['d', 'o', 'n', 'e']

/-- Task-completion KPI of the part_001 variant `loadTasks`: `none`
(`'No Tasks'`) for an empty list, otherwise
`Math.round((completedTasks / totalTasks) * 100)` counting tasks whose
status is completed/done — it ignores the numeric progress column. -/
def loadTasksPercent01 (tasks : List TaskRow) : Option Nat :=
  if tasks.length = 0 then none
  else some (jsRoundDiv (100 * (tasks.filter (fun t => isCompleted01 t.Status)).length)
    tasks.length)

/-- Claim C4 (counterexample): a single task with `Progress = 100` and
`Status = "Pending"`.  The average-of-progress formula gives 100, but the
part_001 variant's completion KPI (cited by the claim) computes
`round(100 * completedCount / totalCount)` from the status column alone
and reports 0. -/
theorem loadTasksPercent01_not_average :
    loadTasksPercent01 [⟨100, ['P', 'e', 'n', 'd', 'i', 'n', 'g']⟩] = some 0 ∧
      jsRoundDiv (List.sum (List.map TaskRow.Progress
          [⟨100, ['P', 'e', 'n', 'd', 'i', 'n', 'g']⟩]))
        (List.length [(⟨100, ['P', 'e', 'n', 'd', 'i', 'n', 'g']⟩ : TaskRow)]) = 100 := by
  constructor
  · rfl
  · rfl

/-- Claim C4 (amended): in src/script.js the task-completion KPI equals
`round(sum of per-task progress / number of tasks)` — within one half of
the exact average — and the empty list yields 0 with no division error;
the part_001 variant instead reports `round(100 * completedCount /
totalCount)` from statuses (and `'No Tasks'` for the empty list). -/
theorem loadTasksPercent_spec (ps : List Nat) :
    loadTasksPercent ps = (if ps.length = 0 then 0 else jsRoundDiv ps.sum ps.length) ∧
      (ps.length ≠ 0 →
        |(loadTasksPercent ps : ℚ) - (ps.sum : ℚ) / (ps.length : ℚ)| ≤ 1 / 2) := by
  have hsum : ps.foldl (fun acc p => acc + p) 0 = ps.sum := by
    rw [foldl_add_eq_sum (fun p => p) ps 0, zero_add, List.map_id']
  constructor
  · unfold loadTasksPercent
    rw [hsum]
  · intro hne
    unfold loadTasksPercent
    rw [if_neg hne, hsum]
    exact jsRoundDiv_near ps.sum ps.length (Nat.pos_of_ne_zero hne)

/-- Witness for C4's amended theorem on the list `[100, 0, 49]`
(`loadTasksPercent` returns 50, within one half of `149/3`). -/
theorem loadTasksPercent_spec_witness :
    ([100, 0, 49] : List Nat).length ≠ 0 ∧
      |(loadTasksPercent [100, 0, 49] : ℚ) -
        (([100, 0, 49] : List Nat).sum : ℚ) / (([100, 0, 49] : List Nat).length : ℚ)| ≤ 1 / 2 :=
  ⟨by decide, (loadTasksPercent_spec [100, 0, 49]).2 (by decide)⟩

/-- `parseFloat(x) || 0`: a non-numeric amount (`NaN`, modelled `none`)
contributes 0; a numeric amount contributes its value (negative included). -/
def parseOr0 : Option ℚ → ℚ
  | none => 0
  | some v => v

/-- Total-spent accumulation of the part_001 variant `loadExpenses`:
`totalSpent += parseFloat(expense.Amount) || 0` over all of the
project's expenses. -/
def loadExpensesTotal01 (amounts : List (Option ℚ)) : ℚ :=
  amounts.foldl (fun acc a => acc + parseOr0 a) 0

/-- Modelled from the spec: `totalSpent = sum(max(0, parseNumber(e.amount)))`,
the formula the claim asserts, for comparison with the code's actual sum. -/
def specTotalSpent (amounts : List (Option ℚ)) : ℚ :=
  (amounts.map (fun a => max 0 (parseOr0 a))).sum

/-- Claim C5 (counterexample): a single expense with amount `-50`.  The
code's total is `-50`; the claim's `max(0, ·)` formula would give 0. -/
theorem loadExpensesTotal01_negative :
    loadExpensesTotal01 [some (-50)] = -50 ∧
      loadExpensesTotal01 [some (-50)] ≠ specTotalSpent [some (-50)] := by
  constructor
  · norm_num [loadExpensesTotal01, parseOr0]
  · norm_num [loadExpensesTotal01, specTotalSpent, parseOr0]

/-- Claim C5 (amended): the total-spent KPI is the plain sum of
`parseFloat(amount) || 0` over the project's expenses — non-numeric
amounts contribute 0 (so the sum is never NaN), but negative amounts
contribute their negative value. -/
theorem loadExpensesTotal01_spec (amounts : List (Option ℚ)) :
    loadExpensesTotal01 amounts = (amounts.map parseOr0).sum := by
  unfold loadExpensesTotal01
  rw [foldl_add_eq_sum parseOr0 amounts 0, zero_add]

/-- `Math.round` on a rational: round half up, `⌊x + 1/2⌋`. -/
def jsRound (q : ℚ) : Int := ⌊q + 1 / 2⌋

/-- Material-dispatch KPI of src/script.js `loadMaterials`: `0%` for an
empty material list; otherwise accumulate `parseFloat(...) || 0` over
`Required_Qty` and `Dispatched_Qty` and show
`Math.round((totalDispatched / totalRequired) * 100)` when
`totalRequired > 0`, else `0` — with no clamping. -/
def loadMaterialsPercent (mats : List (Option ℚ × Option ℚ)) : Int :=
  if mats.length = 0 then 0
  else
    let totalRequired := mats.foldl (fun acc m => acc + parseOr0 m.1) 0
    let totalDispatched := mats.foldl (fun acc m => acc + parseOr0 m.2) 0
    if 0 < totalRequired then jsRound (totalDispatched / totalRequired * 100) else 0

/-- Spec-side total required quantity. -/
def totalReq (mats : List (Option ℚ × Option ℚ)) : ℚ :=
  (mats.map (fun m => parseOr0 m.1)).sum

/-- Spec-side total dispatched quantity. -/
def totalDisp (mats : List (Option ℚ × Option ℚ)) : ℚ :=
  (mats.map (fun m => parseOr0 m.2)).sum

/-- Claim C6 (counterexample): one material with required 1 and
dispatched 2.  src/script.js shows `200%` — the KPI is not clamped to
`[0, 100]`. -/
theorem loadMaterialsPercent_unclamped :
    loadMaterialsPercent [(some 1, some 2)] = 200 ∧
      ¬loadMaterialsPercent [(some 1, some 2)] ≤ 100 := by
  have hval : jsRound (200 : ℚ) = 200 := by
    unfold jsRound
    rw [Int.floor_eq_iff]
    norm_num
  have h : loadMaterialsPercent [(some 1, some 2)] = 200 := by
    have h1 : loadMaterialsPercent [(some 1, some 2)] = jsRound (200 : ℚ) := by
      norm_num [loadMaterialsPercent, parseOr0]
    rw [h1, hval]
  refine ⟨h, by rw [h]; decide⟩

/-- Claim C6 (amended): the dispatched-percent KPI equals
`round(100 * totalDispatched / totalRequired)` — unclamped — when the
total required quantity is positive with a non-empty list, and `0` when
the list is empty or the total required quantity is not positive. -/
theorem loadMaterialsPercent_spec (mats : List (Option ℚ × Option ℚ)) :
    loadMaterialsPercent mats =
      if 0 < totalReq mats ∧ mats ≠ [] then jsRound (100 * totalDisp mats / totalReq mats)
      else 0 := by
  rcases mats with _ | ⟨m, t⟩
  · simp [loadMaterialsPercent, totalReq]
  · simp only [loadMaterialsPercent, totalReq, totalDisp]
    rw [foldl_add_eq_sum (fun x => parseOr0 x.1) (m :: t) 0,
      foldl_add_eq_sum (fun x => parseOr0 x.2) (m :: t) 0, zero_add, zero_add]
    have hne : (m :: t) ≠ [] := by simp
    by_cases hr : 0 < ((m :: t).map (fun x => parseOr0 x.1)).sum
    · rw [if_neg (by simp), if_pos hr, if_pos ⟨hr, hne⟩]
      congr 1
      ring
    · rw [if_neg (by simp), if_neg hr, if_neg (by tauto)]

/-- Decimal digits of `n` (most significant first); fuel-based so the
recursion is structural. -/
def natDigitsAux : Nat → Nat → List Char
  | 0, _ => []
  | fuel + 1, n => if n = 0 then [] else natDigitsAux fuel (n / 10) ++ [Char.ofNat (48 + n % 10)]

/-- Decimal rendering of a natural number. -/
def natToDigits (n : Nat) : List Char := if n = 0 then ['0'] else natDigitsAux (n + 1) n

/-- `String.padStart(len, '0')`. -/
def padTo (len : Nat) (s : List Char) : List Char := List.replicate (len - s.length) '0' ++ s

/-- The `YYYY-MM-DD` rendering of a date produced by `toISOString`. -/
def toISOChars (c : Nat × Nat × Nat) : List Char :=
  padTo 4 (natToDigits c.1) ++ '-' :: (padTo 2 (natToDigits c.2.1) ++ '-' :: padTo 2 (natToDigits c.2.2))

/-- A raw spreadsheet cell value as seen by the date helpers: null/undefined,
a number, or a string. -/
inductive JSVal where
  | vnull
  | num (n : Int)
  | str (s : List Char)
deriving DecidableEq

/-- JavaScript falsiness of a cell value (`!dateValue`). -/
def jsFalsy : JSVal → Bool
  | .vnull => true
  | .num n => n == 0
  | .str s => s.isEmpty

/-- Value of a digit string. -/
def digitsToNat (s : List Char) : Nat := s.foldl (fun a c => 10 * a + (c.toNat - 48)) 0

/-- The `/^\d+$/` test: non-empty and all digits. -/
def isDigitStr (s : List Char) : Bool := !s.isEmpty && s.all Char.isDigit

/-- `Number(string)`: the empty string is 0, digit strings (optionally
`-`-signed) are their value, anything else is NaN (`none`). -/
def parseNumber (s : List Char) : Option Int :=
  if s.isEmpty then some 0
  else if s.all Char.isDigit then some (digitsToNat s)
  else
    match s with
    | '-' :: rest =>
      if !rest.isEmpty && rest.all Char.isDigit then some (-(digitsToNat rest : Int)) else none
    | _ => none

/-- `Number(value)` on a raw cell value. -/
def jsToNumber : JSVal → Option Int
  | .vnull => some 0
  | .num n => some n
  | .str s => parseNumber s

/-- `serialDateToISO` on a raw cell value: coerce with `Number` and apply
the serial conversion (`none` both for NaN and for serials below 1). -/
def serialDateToISOv (v : JSVal) : Option (Nat × Nat × Nat) :=
  match jsToNumber v with
  | none => none
  | some n => serialDateToISO n

/-- `String(value)`. -/
def jsValToString : JSVal → List Char
  | .vnull => ['n', 'u', 'l', 'l']
  | .num n => if n < 0 then '-' :: natToDigits n.natAbs else natToDigits n.toNat
  | .str s => s

/-- The intermediate `isoDate` string of `formatDisplayDate`: digit-only
strings go through `serialDateToISO` (its empty-string sentinel stays
empty), everything else is passed through. -/
def fddIso (v : JSVal) : List Char :=
  let s := jsValToString v
  if isDigitStr s then
    match serialDateToISOv (.num (digitsToNat s)) with
    | none => []
    | some c => toISOChars c
  else s

/-- `formatDisplayDate` of src/script.js: `'N/A'` for falsy input;
otherwise split the (possibly serial-converted) string on `'-'` and
reassemble `DD-MM-YYYY` when there are exactly three parts, returning the
original value unchanged otherwise. -/
def formatDisplayDate (v : JSVal) : JSVal :=
  if jsFalsy v then .str ['N', '/', 'A']
  else
    let parts := (fddIso v).splitOn '-'
    if h : parts.length = 3 then
      .str (parts.get ⟨2, by omega⟩ ++ '-' :: (parts.get ⟨1, by omega⟩ ++ '-' :: parts.get ⟨0, by omega⟩))
    else v

/-- Claim C7 (counterexample): the negative number `-5` and the string
`"hello"` are returned unchanged by `formatDisplayDate`, not as the
literal `"N/A"` the claim requires. -/
theorem formatDisplayDate_fallback_cex :
    formatDisplayDate (.num (-5)) = .num (-5) ∧
      formatDisplayDate (.str ['h', 'e', 'l', 'l', 'o']) = .str ['h', 'e', 'l', 'l', 'o'] ∧
      JSVal.num (-5) ≠ .str ['N', '/', 'A'] ∧
      JSVal.str ['h', 'e', 'l', 'l', 'o'] ≠ .str ['N', '/', 'A'] := by
  refine ⟨?_, ?_, by decide, by decide⟩ <;> rfl

/-- Claim C7 (amended): `serialDateToISO` returns the empty sentinel for
every empty/null/negative/non-numeric input without throwing, and
`formatDisplayDate` returns `"N/A"` exactly for falsy input (null, empty
string, the number 0), falling back to the original raw value unchanged
when the processed string does not split into three dash-separated parts. -/
theorem formatDisplayDate_spec (v : JSVal) :
    (jsFalsy v = true → formatDisplayDate v = .str ['N', '/', 'A'] ∧ serialDateToISOv v = none) ∧
      (∀ n : Int, jsToNumber v = some n → n < 1 → serialDateToISOv v = none) ∧
      (jsToNumber v = none → serialDateToISOv v = none) ∧
      (jsFalsy v = false → ((fddIso v).splitOn '-').length ≠ 3 → formatDisplayDate v = v) := by
  refine ⟨?_, ?_, ?_, ?_⟩
  · intro hf
    refine ⟨by unfold formatDisplayDate; rw [if_pos hf], ?_⟩
    cases v with
    | vnull => rfl
    | num n =>
      have hn : n = 0 := by simpa [jsFalsy] using hf
      rw [hn]; rfl
    | str s =>
      have hs : s = [] := by simpa [jsFalsy, List.isEmpty_iff] using hf
      rw [hs]; rfl
  · intro n hn hlt
    simp only [serialDateToISOv, hn]
    unfold serialDateToISO
    rw [if_pos hlt]
  · intro hn
    simp only [serialDateToISOv, hn]
  · intro hf h3
    unfold formatDisplayDate
    rw [if_neg (by rw [hf]; simp)]
    exact dif_neg h3

/-- Witness for C7's amended theorem: the falsy number 0 maps to `"N/A"`,
and the non-numeric string `"x"` has a `none` serial conversion. -/
theorem formatDisplayDate_spec_witness :
    formatDisplayDate (.num 0) = .str ['N', '/', 'A'] ∧ serialDateToISOv (.str ['x']) = none :=
  ⟨((formatDisplayDate_spec (.num 0)).1 rfl).1, (formatDisplayDate_spec (.str ['x'])).2.2.1 rfl⟩

/-- The `/^HT-(\d+)$/i` match of `generateNewID`: the numeric suffix when
the identifier has the (case-insensitive) `HT-` shape, else `none`. -/
def matchHT (id : List Char) : Option Nat :=
  match id with
  | c1 :: c2 :: c3 :: rest =>
    if (c1 = 'H' ∨ c1 = 'h') ∧ (c2 = 'T' ∨ c2 = 't') ∧ c3 = '-' ∧
        rest ≠ [] ∧ rest.all Char.isDigit then some (digitsToNat rest)
    else none
  | _ => none

/-- `generateNewID` of src/script.js: map every existing identifier to its
matched numeric suffix (0 when it does not match), take
`Math.max(..., 0)`, add 1, and render as `HT-` plus the number padded to
at least two digits. -/
def generateNewID (ids : List (List Char)) : List Char :=
  'H' :: 'T' :: '-' ::
    padTo 2 (natToDigits ((ids.map (fun id => (matchHT id).getD 0)).foldl max 0 + 1))

/-- Spec-side maximum numeric suffix over the matching identifiers only,
defaulting to 0. -/
def specMaxSuffix (ids : List (List Char)) : Nat := (ids.filterMap matchHT).foldr max 0

theorem foldl_max_eq (l : List Nat) : ∀ i : Nat, l.foldl max i = max i (l.foldr max 0) := by
  induction l with
  | nil => intro i; simp
  | cons x t ih =>
    intro i
    simp only [List.foldl, List.foldr]
    rw [ih (max i x)]
    omega

theorem map_getD_foldr (ids : List (List Char)) :
    ((ids.map (fun id => (matchHT id).getD 0)).foldr max 0) = (ids.filterMap matchHT).foldr max 0 := by
  induction ids with
  | nil => rfl
  | cons id t ih =>
    cases h : matchHT id with
    | none => simp [List.filterMap_cons, h, ih]
    | some k => simp [List.filterMap_cons, h, ih]

/-- Claim C8: `generateNewID` is a pure function of the existing ID list
equal to `HT-` plus the zero-padded successor of the maximum numeric
suffix over `^HT-(\d+)$` matches (0 when none match); in particular
`["HT-01", "HT-03", "HT-2"]` yields `"HT-04"`. -/
theorem generateNewID_spec :
    (∀ ids, generateNewID ids = 'H' :: 'T' :: '-' :: padTo 2 (natToDigits (specMaxSuffix ids + 1))) ∧
      generateNewID [['H', 'T', '-', '0', '1'], ['H', 'T', '-', '0', '3'], ['H', 'T', '-', '2']] =
        ['H', 'T', '-', '0', '4'] := by
  constructor
  · intro ids
    unfold generateNewID specMaxSuffix
    rw [foldl_max_eq, map_getD_foldr, Nat.zero_max]
  · rfl

/-- Outcome of one SheetDB DELETE call as inspected by the handler: a JSON
body with a `deleted` count, or an error body / non-OK HTTP status. -/
inductive DelRes where
  | ok (deleted : Nat)
  | err
deriving DecidableEq

/-- The delete-project handler's success test: only
`jsonResults[0] && jsonResults[0].deleted` — the first (Projects)
result — is consulted; the Tasks/Expenses/Materials results are ignored. -/
def deleteReportedSuccess (rs : List DelRes) : Bool :=
  match rs with
  | DelRes.ok n :: _ => n != 0
  | _ => false

/-- Claim C9 (counterexample): the Projects delete succeeds while the
Tasks, Expenses and Materials deletes all fail, yet the handler reports
full success. -/
theorem deleteReportedSuccess_partial_cex :
    deleteReportedSuccess [DelRes.ok 1, DelRes.err, DelRes.err, DelRes.err] = true ∧
      [DelRes.ok 1, DelRes.err, DelRes.err, DelRes.err].get? 1 = some DelRes.err := by
  constructor <;> rfl

/-- Claim C9 (amended): the reported outcome depends only on the first
(Projects) delete result — success is reported whenever its `deleted`
count is truthy, regardless of the other three collections' results, and
failure is reported when the Projects result itself is an error. -/
theorem deleteReportedSuccess_spec (r : DelRes) (rest rest' : List DelRes) :
    deleteReportedSuccess (r :: rest) = deleteReportedSuccess (r :: rest') ∧
      (∀ n, r = DelRes.ok n → n ≠ 0 → deleteReportedSuccess (r :: rest) = true) ∧
      (r = DelRes.err → deleteReportedSuccess (r :: rest) = false) := by
  cases r with
  | ok n =>
    refine ⟨rfl, ?_, ?_⟩
    · intro m hm hne
      cases hm
      simpa [deleteReportedSuccess] using hne
    · intro h
      exact DelRes.noConfusion h
  | err =>
    refine ⟨rfl, ?_, fun _ => rfl⟩
    intro m hm
    exact DelRes.noConfusion hm

/-- Witness for C9's amended theorem: a truthy Projects delete followed by
a failing delete still reports success. -/
theorem deleteReportedSuccess_spec_witness :
    deleteReportedSuccess [DelRes.ok 2, DelRes.err] = true :=
  (deleteReportedSuccess_spec (DelRes.ok 2) [DelRes.err] []).2.1 2 rfl (by decide)

/-- The option-building loop of part_000 `populateTaskUpdateSelector`:
walks the numerically sorted task list carrying
`isPreviousTaskComplete`; an option is disabled (`LOCKED`) when that flag
is down and the task's own progress is below 100.  The flag is cleared
both by the previous-task check and by the end-of-iteration check. -/
def lockGo (flag : Bool) (prev : Option Int) : List Int → List Bool
  | [] => []
  | p :: rest =>
    let flag1 := match prev with
      | none => flag
      | some q => if q < 100 then false else flag
    let disabled := !flag1 && decide (p < 100)
    let flag2 := if p < 100 then false else flag1
    disabled :: lockGo flag2 (some p) rest

/-- Disabled flags of the task-update dropdown, in task order. -/
def populateTaskUpdateLocks (ps : List Int) : List Bool := lockGo true none ps

/-- Reference recursion: a task is locked iff some earlier task is
incomplete and the task itself is incomplete. -/
def specGo (earlier : Bool) : List Int → List Bool
  | [] => []
  | p :: rest => (earlier && decide (p < 100)) :: specGo (earlier || decide (p < 100)) rest

theorem lockGo_eq_specGo : ∀ (ps : List Int) (flag : Bool) (prev : Option Int),
    lockGo flag prev ps =
      specGo (!(match prev with
        | none => flag
        | some q => if q < 100 then false else flag)) ps := by
  intro ps
  induction ps with
  | nil => intro flag prev; cases prev <;> rfl
  | cons p rest ih =>
    intro flag prev
    cases prev with
    | none => by_cases hp : p < 100 <;> simp [lockGo, specGo, hp, ih]
    | some q =>
      by_cases hq : q < 100 <;> by_cases hp : p < 100 <;> simp [lockGo, specGo, hp, hq, ih]

theorem specGo_getD : ∀ (ps : List Int) (e : Bool) (i : Nat), i < ps.length →
    (specGo e ps).getD i false =
      ((e || (ps.take i).any (fun q => decide (q < 100))) && decide (ps.getD i 0 < 100)) := by
  intro ps
  induction ps with
  | nil => intro e i h; simp at h
  | cons p rest ih =>
    intro e i h
    cases i with
    | zero => simp [specGo]
    | succ j =>
      simp only [specGo, List.getD_cons_succ, List.take_succ_cons, List.any_cons]
      rw [ih (e || decide (p < 100)) j (by simpa using h)]
      simp [Bool.or_assoc]

/-- Claim C10: in the task-update dropdown, the option for task `i` is
disabled exactly when some earlier task in the sorted list has progress
below 100 and task `i` itself has progress below 100 — so the first task
is never disabled and a task with progress 100 is never disabled. -/
theorem populateTaskUpdateLocks_spec (ps : List Int) (i : Nat) (h : i < ps.length) :
    (populateTaskUpdateLocks ps).getD i false =
      (((ps.take i).any (fun q => decide (q < 100))) && decide (ps.getD i 0 < 100)) := by
  unfold populateTaskUpdateLocks
  rw [lockGo_eq_specGo ps true none]
  show (specGo false ps).getD i false = _
  rw [specGo_getD ps false i h]
  simp

/-- Witness for C10 on the progress list `[100, 50, 100, 20]` at index 3:
task 2 (progress 50) is an incomplete earlier task, so task 4 is locked. -/
theorem populateTaskUpdateLocks_spec_witness :
    (populateTaskUpdateLocks [100, 50, 100, 20]).getD 3 false =
        ((([100, 50, 100, 20] : List Int).take 3).any (fun q => decide (q < 100)) &&
          decide (([100, 50, 100, 20] : List Int).getD 3 0 < 100)) ∧
      (populateTaskUpdateLocks [100, 50, 100, 20]).getD 3 false = true :=
  ⟨populateTaskUpdateLocks_spec [100, 50, 100, 20] 3 (by decide), by decide⟩
